import Mathlib

/-!
# Verification of the qdrant-analytics-api request shaper, auth gate and forwarding facade

A shallow embedding of the Python sources (`app/utils.py`, `app/dependencies.py`,
`app/segment/service.py`, `app/routers/tracking.py`) into Lean, together with
theorems settling the specification claims about identity resolution, property and
context shaping, authentication, and the Segment facade.

JSON-like Python values are modelled by `Value`; Python dictionaries by ordered
association lists (`Obj`) with insert-or-update (`dictSet`), lookup (`dictGet?`),
membership (`dictContains`) and removal (`dictPop`) mirroring Python `d[k] = v`,
`d.get`, `in` and `pop`.  Python exceptions are modelled with `Except PyErr`;
functions whose Python source wraps the body in `try/except` are the `Except`-free
catch of a `..._try` body.  The real current time is not embeddable, so the value
of `utc_now().strftime(date_format)` is passed to `create_args` as the explicit
argument `now_formatted`.
-/

set_option autoImplicit false

/-- A Python/JSON value: `None`, booleans, strings, integers, lists and
dictionaries (ordered key-value pairs, as in Python 3.7+). -/
inductive Value where
  | null
  | bool (b : Bool)
  | str (s : String)
  | int (n : Int)
  | list (xs : List Value)
  | dict (entries : List (String × Value))

/-- A Python dictionary with string keys: an ordered association list. -/
abbrev Obj := List (String × Value)

/-- Python truthiness (`bool(v)`): `None`, `False`, `""`, `0`, `[]`, `{}` are falsy. -/
def truthy : Value → Bool
  | .null => false
  | .bool b => b
  | .str s => !(s == "")
  | .int n => !(n == 0)
  | .list xs => !xs.isEmpty
  | .dict xs => !xs.isEmpty

/-- Python `v is None`. -/
def isNull : Value → Bool
  | .null => true
  | _ => false

/-- Python `v == s` against a string literal `s` (cross-type `==` is `False`). -/
def valueEqStr (v : Value) (s : String) : Bool :=
  match v with
  | .str t => t == s
  | _ => false

/-- Python `d.get(k)` / `d[k]` lookup: the value at the first occurrence of key `k`. -/
def dictGet? (d : Obj) (k : String) : Option Value :=
  match d with
  | [] => none
  | (k', v) :: rest => if k' == k then some v else dictGet? rest k

/-- Python `d.get(k, default)`. -/
def dictGetD (d : Obj) (k : String) (v : Value) : Value :=
  (dictGet? d k).getD v

/-- Python `k in d`. -/
def dictContains (d : Obj) (k : String) : Bool :=
  (dictGet? d k).isSome

/-- Python `d[k] = v`: update the value in place if the key exists, else append. -/
def dictSet (d : Obj) (k : String) (v : Value) : Obj :=
  match d with
  | [] => [(k, v)]
  | (k', v') :: rest => if k' == k then (k, v) :: rest else (k', v') :: dictSet rest k v

/-- The effect of Python `d.pop(k, default)` on the dictionary: remove the entry for `k`. -/
def dictPop (d : Obj) (k : String) : Obj :=
  match d with
  | [] => []
  | (k', v') :: rest => if k' == k then rest else (k', v') :: dictPop rest k

/-- Split a character list at the first occurrence of `sep`: the parts before
and after, or `none` when `sep` does not occur. -/
def breakAtChar (sep : Char) : List Char → Option (List Char × List Char)
  | [] => none
  | c :: cs =>
      if c == sep then
        some ([], cs)
      else
        match breakAtChar sep cs with
        | some (a, b) => some (c :: a, b)
        | none => none

/-- Python `s.partition(sep)` for a one-character separator (the source only
partitions at `"?"`), keeping only the before/after parts that
`path, _, search = path_and_search.partition("?")` uses: split at the first
occurrence of `sep`; if `sep` does not occur, the whole string and `""`. -/
def pyPartition (s : String) (sep : Char) : String × String :=
  match breakAtChar sep s.data with
  | some (a, b) => (⟨a⟩, ⟨b⟩)
  | none => (s, "")

/-- Python `s.replace(old, new)` on character lists, with `fuel` bounding the
number of scanning steps: replace every non-overlapping occurrence of `pat`,
scanning left to right.  (Only ever called with `pat` non-empty in the
embedded code; `pyReplace` supplies enough fuel for the whole scan.) -/
def pyReplaceAux (pat rep : List Char) : Nat → List Char → List Char
  | 0, l => l
  | _, [] => []
  | fuel + 1, c :: cs =>
      if pat.isPrefixOf (c :: cs) && !pat.isEmpty then
        rep ++ pyReplaceAux pat rep fuel ((c :: cs).drop pat.length)
      else
        c :: pyReplaceAux pat rep fuel cs

/-- Python `s.replace(old, new)`. -/
def pyReplace (s pat rep : String) : String :=
  ⟨pyReplaceAux pat.data rep.data s.data.length s.data⟩

/-- The parts of a FastAPI `Request` the shaper reads: the header multimap
(case-insensitive lookup, as in Starlette) and the peer address `request.client.host`. -/
structure Request where
  headers : List (String × String)
  clientHost : String

/-- ASCII lower-casing of a header name (Starlette lower-cases header keys). -/
def lowerName (s : String) : String :=
  ⟨s.data.map (fun c => if 65 ≤ c.toNat && c.toNat ≤ 90 then Char.ofNat (c.toNat + 32) else c)⟩

/-- `request.headers.get(k, default=None)`: case-insensitive header lookup. -/
def headerGet (r : Request) (k : String) : Option String :=
  (r.headers.find? (fun p => lowerName p.1 == lowerName k)).map (fun p => p.2)

/-- A header value as used in item assignments: the string, or `None` when the
header is absent (`request.headers.get(k, None)`). -/
def headerValue (r : Request) (k : String) : Value :=
  match headerGet r k with
  | some s => .str s
  | none => .null

/-- `request.headers.get("Accept-Language", "").split(",")[0]`: the characters
before the first comma (Python `split` always yields at least one piece). -/
def headerLocale (r : Request) : String :=
  ⟨((headerGet r "Accept-Language").getD "").data.takeWhile (fun c => !(c == ','))⟩

/-- The Python exceptions the embedded code can raise. -/
inductive PyErr where
  | typeError (msg : String)
  | valueError (msg : String)
  | keyError (k : String)
  | validationError

/-- The message used when an exception is routed to a logger / error handler. -/
def pyErrMsg : PyErr → String
  | .typeError m => "TypeError: " ++ m
  | .valueError m => "ValueError: " ++ m
  | .keyError k => "KeyError: " ++ k
  | .validationError => "ValidationError"

/-- Modelled from the spec: the constant `NON_CONSENTED_USER_ID` lives in
`app/constants.py`, which is absent from the sources; the spec fixes the sentinel
string via the `/identify` message `User (not_consented) was not identified`. -/
def NON_CONSENTED_USER_ID : String := "not_consented"

/-- `app/utils.py` `date_format = "%Y-%m-%dT%H:%M:%S.%fZ"`. -/
def date_format : String := "%Y-%m-%dT%H:%M:%S.%fZ"

/-- `app/utils.py` `get_ids`: `user_id` is `data["user_id"]` when the key is
present (possibly `None`), else `None`; `anonymous_id` is
`data.get("anonymous_id", None) or NON_CONSENTED_USER_ID`. -/
def get_ids (data : Obj) : Value × Value :=
  let user_id := if dictContains data "user_id" then dictGetD data "user_id" .null else .null
  let a := dictGetD data "anonymous_id" .null
  let anonymous_id := if truthy a then a else .str NON_CONSENTED_USER_ID
  (user_id, anonymous_id)

/-- The url-splitting branch of `format_properties`:
`origin = request.headers.get("origin", False)`; when `"url" in properties and origin`,
set `path` and `search` from `properties["url"].replace(origin, "").partition("?")`.
`origin` is falsy when the header is absent or empty; a non-string url raises
(`.replace` on a non-`str` is an `AttributeError`/`TypeError` in Python). -/
def urlSplitStep (request : Request) (properties : Obj) : Except PyErr Obj :=
  let originTruthy := match headerGet request "origin" with
    | some o => !(o == "")
    | none => false
  if dictContains properties "url" && originTruthy then
    match dictGet? properties "url", headerGet request "origin" with
    | some (.str u), some origin =>
        let ps := pyPartition (pyReplace u origin "") '?'
        .ok (dictSet (dictSet properties "path" (.str ps.1)) "search" (.str ps.2))
    | some _, _ => .error (.typeError "url replace: not a str")
    | none, _ => .error (.keyError "url")
  else
    .ok properties

/-- The unconditional tail of `format_properties`: set `referrer` from the
`Referer` header, echo `originalTimestamp` from the payload, and copy `name`
into the properties when the payload has a truthy `name` (page events). -/
def finishProperties (request : Request) (data : Obj) (properties : Obj) : Obj :=
  if truthy (dictGetD data "name" .null) then
    dictSet
      (dictSet (dictSet properties "referrer" (headerValue request "referer"))
        "originalTimestamp" (dictGetD data "originalTimestamp" .null))
      "name" (dictGetD data "name" .null)
  else
    dictSet (dictSet properties "referrer" (headerValue request "referer"))
      "originalTimestamp" (dictGetD data "originalTimestamp" .null)

/-- `app/utils.py` `format_properties`.  `data.get("properties", {})` must be a
dictionary for the subsequent item assignments to succeed (any non-dict raises
in Python). -/
def format_properties (request : Request) (data : Obj) : Except PyErr Obj :=
  match dictGetD data "properties" (.dict []) with
  | .dict properties =>
      match urlSplitStep request properties with
      | .ok properties => .ok (finishProperties request data properties)
      | .error e => .error e
  | _ => .error (.typeError "properties item assignment: not a dict")

/-- `app/utils.py` `format_context`: empty when `anonymous_id` equals the
non-consent sentinel; otherwise `{ip, userAgent, locale}` set over the
caller-supplied `context` object, plus `page` obtained by running
`format_properties` over the `properties` argument (the already-formatted
properties dictionary is passed as the `data` argument) and popping `name`. -/
def format_context (request : Request) (data : Obj) (properties : Obj)
    (anonymous_id : Value) : Except PyErr Obj :=
  if valueEqStr anonymous_id NON_CONSENTED_USER_ID then
    .ok []
  else
    match dictGetD data "context" (.dict []) with
    | .dict context0 =>
        match format_properties request properties with
        | .ok pageProps =>
            .ok (dictSet
              (dictSet
                (dictSet (dictSet context0 "ip" (.str request.clientHost))
                  "userAgent" (headerValue request "user-agent"))
                "locale" (.str (headerLocale request)))
              "page" (.dict (dictPop pageProps "name")))
        | .error e => .error e
    | _ => .error (.typeError "context item assignment: not a dict")

/-- `app/utils.py` `create_args(request, data, exclude_properties=False)`.
`now_formatted` stands for `utc_now().strftime(date_format)`, the current
instant rendered in the fixed ISO-8601-with-milliseconds format, which
`data.get("originalTimestamp", ...)` uses as the default. -/
def create_args (now_formatted : String) (request : Request) (data : Obj)
    (exclude_properties : Bool := false) : Except PyErr Obj :=
  let user_id := (get_ids data).1
  let anonymous_id := (get_ids data).2
  let args : Obj :=
    [ ("event_name", dictGetD data "event_name" (.str "no event name")),
      ("user_id", user_id),
      ("anonymous_id", anonymous_id),
      ("integrations", dictGetD data "integrations" (.dict [])),
      ("timestamp", dictGetD data "originalTimestamp" (.str now_formatted)) ]
  match format_properties request data with
  | .ok properties =>
      let args := if exclude_properties then args else dictSet args "properties" (.dict properties)
      match format_context request data properties anonymous_id with
      | .ok context => .ok (dictSet args "context" (.dict context))
      | .error e => .error e
  | .error e => .error e

/-! ## Authentication gate and request dispatch (`app/dependencies.py`, `app/main.py`) -/

/-- A FastAPI `HTTPException`, as raised by the authentication dependency. -/
structure HTTPError where
  status : Nat
  detail : String

/-- `app/dependencies.py` `authenticate`: the `x-api-key` header (or `None` when
absent) is compared with plain `!=` against `API_AUTHENTICATION_KEY`
(`os.getenv`, so `none` when the environment variable is unset); a mismatch
raises `HTTPException(status_code=401, detail="Unauthorized")`. -/
def authenticate (api_authentication_key : Option String) (x_api_key : Option String) :
    Except HTTPError Unit :=
  if x_api_key ≠ api_authentication_key then
    .error { status := 401, detail := "Unauthorized" }
  else
    .ok ()

/-- The routes of the application (`app/main.py` root route plus the
`app/routers/tracking.py` router). -/
inductive Route where
  | root
  | healthcheck
  | anonymous_id
  | identifyRoute
  | trackRoute
  | pageRoute
deriving DecidableEq

/-- Which handlers declare the `authenticate` dependency: every route except
`GET /healthcheck`. -/
def auth_required : Route → Bool
  | .healthcheck => false
  | _ => true

/-- An HTTP response: a status code and a body (for an `HTTPException` the
framework renders the body as `{"detail": ...}`). -/
structure HTTPResponse where
  status : Nat
  body : Obj

/-- The response FastAPI renders for a raised `HTTPException`. -/
def errorResponse (e : HTTPError) : HTTPResponse :=
  { status := e.status, body := [("detail", .str e.detail)] }

/-- Request dispatch: when the route declares the `authenticate` dependency and
the dependency raises, FastAPI returns the rendered `HTTPException` and never
invokes the handler (modelled as a state transformer over an arbitrary state
type, so that "the handler did not run" is visible as the state being returned
unchanged and the response being independent of the handler). -/
def dispatch {σ : Type} (api_authentication_key : Option String) (route : Route)
    (x_api_key : Option String) (handler : σ → HTTPResponse × σ) (st : σ) :
    HTTPResponse × σ :=
  if auth_required route then
    match authenticate api_authentication_key x_api_key with
    | .error e => (errorResponse e, st)
    | .ok _ => handler st
  else
    handler st

/-! ## Forwarding facade (`app/segment/service.py`)

Event-schema validation is delegated to the external `qdrant_analytics_events`
pydantic models (out of scope per the spec), so `model_validate` followed by
`model_dump` is abstracted as a caller-supplied function
`validate : Obj → Option Obj` returning the dumped field mapping, or `none`
when validation raises. -/

/-- A deferred delivery task registered with `BackgroundTasks.add_task`. -/
inductive SegmentTask where
  | identifyTask (user_id : Value) (anonymous_id : Value) (event_props : Obj)
  | trackTask (event_props : Obj)
  | pageTask (user_id : Value) (anonymous_id : Value) (event_props : Obj)

/-- Observable facade state: the scheduled background tasks and the log lines
written through `logger`/`logging` (error log for `_on_error`, warning log for
the except branch of `track_event`). -/
structure ServiceState where
  tasks : List SegmentTask
  errorLog : List String
  warnLog : List String

/-- `SegmentService._on_error`: log the exception; the event is dropped. -/
def on_error (st : ServiceState) (e : PyErr) : ServiceState :=
  { st with errorLog := st.errorLog ++ [pyErrMsg e] }

/-- Python `d[k]`: indexing raises `KeyError` when the key is absent. -/
def dictIndex (d : Obj) (k : String) : Except PyErr Value :=
  match dictGet? d k with
  | some v => .ok v
  | none => .error (.keyError k)

/-- The body of the `try` block of `SegmentService.identify`: validate, pop
`user_id` (default `None`) and `anonymous_id` (default the sentinel), raise
`ValueError` when either is `None`, else schedule the `_identify` background
task with the remaining fields. -/
def SegmentService.identify_try (validate : Obj → Option Obj) (st : ServiceState)
    (event : Obj) : Except PyErr ServiceState :=
  match validate event with
  | none => .error .validationError
  | some event_props =>
      let user_id := dictGetD event_props "user_id" .null
      let event_props := dictPop event_props "user_id"
      let anonymous_id := dictGetD event_props "anonymous_id" (.str NON_CONSENTED_USER_ID)
      let event_props := dictPop event_props "anonymous_id"
      if isNull user_id || isNull anonymous_id then
        .error (.valueError "`user_id` and `anonymous id` are required")
      else
        .ok { st with tasks := st.tasks ++ [.identifyTask user_id anonymous_id event_props] }

/-- `SegmentService.identify`: the whole body is wrapped in
`try ... except Exception as error: self._on_error(error)`, so no exception
ever propagates to the caller; the method returns `None`. -/
def SegmentService.identify (validate : Obj → Option Obj) (st : ServiceState)
    (event : Obj) : ServiceState :=
  match SegmentService.identify_try validate st event with
  | .ok st' => st'
  | .error e => on_error st e

/-- The condition `event_props["user_id"] is None and event_props["anonymous_id"] is None`
of `SegmentService.track_event`, with Python's short-circuit `and`: the second
index is only evaluated when the first is `None`. -/
def track_guard (event_props : Obj) : Except PyErr Bool :=
  match dictIndex event_props "user_id" with
  | .ok u =>
      if isNull u then
        match dictIndex event_props "anonymous_id" with
        | .ok a => .ok (isNull a)
        | .error e => .error e
      else
        .ok false
  | .error e => .error e

/-- The body of the `try` block of `SegmentService.track_event`: validate,
raise `ValueError` when both identifiers are `None`, else schedule the
`_track_event` background task and return `True`. -/
def SegmentService.track_event_try (validate : Obj → Option Obj) (st : ServiceState)
    (event_payload : Obj) : Except PyErr (Bool × ServiceState) :=
  match validate event_payload with
  | none => .error .validationError
  | some event_props =>
      match track_guard event_props with
      | .ok true => .error (.valueError "`user_id` (or `anonymous_id`) and `event_name` are required")
      | .ok false => .ok (true, { st with tasks := st.tasks ++ [.trackTask event_props] })
      | .error e => .error e

/-- `SegmentService.track_event`: any exception inside the `try` block is
caught, logged as a warning and turned into the return value `False`, so the
method never raises and returns a plain boolean success flag. -/
def SegmentService.track_event (validate : Obj → Option Obj) (st : ServiceState)
    (event_payload : Obj) : Bool × ServiceState :=
  match SegmentService.track_event_try validate st event_payload with
  | .ok r => r
  | .error e =>
      (false, { st with warnLog := st.warnLog ++ ["Error (calling track_event): " ++ pyErrMsg e] })

/-! ## The `/identify` route handler (`app/routers/tracking.py`) -/

/-- A Python call signature: parameter names in order, and the subset that
carries a default. -/
structure PySignature where
  params : List String
  defaults : List String

/-- The signature of `app.utils.create_args(request, data, exclude_properties=False)`. -/
def create_args_sig : PySignature :=
  { params := ["request", "data", "exclude_properties"], defaults := ["exclude_properties"] }

/-- Python argument binding: a call with `npos` positional arguments and the
given keyword names binds successfully iff every parameter is bound by
position, by keyword, or by a default (`TypeError` otherwise). -/
def bindsOk (sig : PySignature) (npos : Nat) (kw : List String) : Bool :=
  (List.range sig.params.length).all fun i =>
    decide (i < npos) ||
    (match sig.params.get? i with
     | some name => kw.contains name || sig.defaults.contains name
     | none => false)

/-- What a route handler returns: a JSON body (status 200 unless stated), or
the `/identify` except-branch value `{"Error": error}`. -/
inductive RouteResult where
  | ok (body : Obj)
  | errObj (msg : String)

/-- The `try` block of the `/identify` handler.  Its first statement is
`user_id, anonymous_id, args, data = await create_args(request, exclude_properties=True)`:
the call passes one positional argument and the keyword `exclude_properties`,
leaving the required parameter `data` of `app.utils.create_args` unbound, so
Python raises `TypeError` before any shaping or facade call happens.  (Were the
binding to succeed, unpacking the returned dictionary into four names would
raise `ValueError`, also inside the `try` block.) -/
def identify_route_try (request : Request) (data : Obj) (st : ServiceState) :
    Except PyErr (Obj × ServiceState) :=
  if bindsOk create_args_sig 1 ["exclude_properties"] then
    .error (.valueError "too many values to unpack (expected 4)")
  else
    .error (.typeError "create_args() missing 1 required positional argument: data")

/-- The `/identify` handler: the `try` block above, with
`except Exception as error: logger.error(...); return {"Error": error}`. -/
def identify_route (request : Request) (data : Obj) (st : ServiceState) :
    RouteResult × ServiceState :=
  match identify_route_try request data st with
  | .ok (body, st') => (.ok body, st')
  | .error e => (.errObj (pyErrMsg e), st)

/-- The `200` body the spec and the repository's own test
`test_identify_empty_body` expect for a non-consented `/identify` call:
`{"message": f"User ({NON_CONSENTED_USER_ID}) was not identified"}`. -/
def not_identified_body : Obj :=
  [("message", .str ("User (" ++ NON_CONSENTED_USER_ID ++ ") was not identified"))]

/-- The C5 split as the spec words it ("splits the URL into `path`
(scheme+host prefix stripped) and `search` (query string)"): remove the origin
as a prefix of the url, then split at the first question mark. -/
def spec_path_and_search (origin url : String) : String × String :=
  pyPartition
    (if origin.data.isPrefixOf url.data then (⟨url.data.drop origin.data.length⟩ : String) else url)
    '?'

/-! ## Concrete fixtures used by counterexamples and witnesses -/

/-- A request whose `Origin` header occurs again inside the url's query string. -/
def reqC5 : Request := { headers := [("Origin", "https://a.com")], clientHost := "ip" }

/-- A payload whose `properties.url` repeats the origin in its query string. -/
def dataC5 : Obj :=
  [("properties", .dict [("url", .str "https://a.com/p?q=https://a.com/r")])]

/-- The request of the spec's `/page` test: `Origin: https://testurl.com`. -/
def reqC5url : Request := { headers := [("Origin", "https://testurl.com")], clientHost := "ip" }

/-- The payload of the spec's `/page` test: `properties.url` equal to the origin. -/
def dataC5url : Obj := [("properties", .dict [("url", .str "https://testurl.com")])]

/-- A consented request with user-agent and language headers. -/
def reqC6 : Request :=
  { headers := [("User-Agent", "UA"), ("Accept-Language", "en-US,en")], clientHost := "1.2.3.4" }

/-- A consented payload with a caller-supplied context object and a `title` property. -/
def dataC6 : Obj :=
  [("anonymous_id", .str "a1"), ("context", .dict [("extra", .str "x")]),
   ("properties", .dict [("title", .str "t")])]

/-- The formatted properties of `dataC6` under `reqC6` (no `Referer` header). -/
def propsC6 : Obj :=
  [("title", .str "t"), ("referrer", .null), ("originalTimestamp", .null)]

/-! ## Helper lemmas about the dictionary operations -/

theorem dictGet?_dictSet_self (d : Obj) (k : String) (v : Value) :
    dictGet? (dictSet d k v) k = some v := by
  induction d with
  | nil => simp [dictSet, dictGet?]
  | cons p rest ih =>
      obtain ⟨k', v'⟩ := p
      by_cases h : k' = k
      · subst h; simp [dictSet, dictGet?]
      · simp only [dictSet, dictGet?, beq_iff_eq, if_neg h]
        exact ih

theorem dictGet?_dictSet_ne (d : Obj) (k k2 : String) (v : Value) (h : k2 ≠ k) :
    dictGet? (dictSet d k v) k2 = dictGet? d k2 := by
  induction d with
  | nil => simp [dictSet, dictGet?, beq_iff_eq, Ne.symm h]
  | cons p rest ih =>
      obtain ⟨k', v'⟩ := p
      by_cases hk : k' = k
      · subst hk
        simp [dictSet, dictGet?, beq_iff_eq, Ne.symm h]
      · simp only [dictSet, dictGet?, beq_iff_eq, if_neg hk]
        by_cases hk2 : k' = k2
        · simp [hk2]
        · simp [hk2, ih]

theorem dictGet?_dictPop_ne (d : Obj) (k k2 : String) (h : k2 ≠ k) :
    dictGet? (dictPop d k) k2 = dictGet? d k2 := by
  induction d with
  | nil => simp [dictPop]
  | cons p rest ih =>
      obtain ⟨k', v'⟩ := p
      by_cases hk : k' = k
      · subst hk
        simp [dictPop, dictGet?, beq_iff_eq, Ne.symm h]
      · simp only [dictPop, dictGet?, beq_iff_eq, if_neg hk]
        by_cases hk2 : k' = k2
        · simp [hk2]
        · simp [hk2, ih]

theorem isNull_iff (v : Value) : isNull v = true ↔ v = .null := by
  cases v <;> simp [isNull]

theorem dictGetD_of_not_contains (d : Obj) (k : String) (v : Value)
    (h : dictContains d k = false) : dictGetD d k v = v := by
  unfold dictContains at h
  unfold dictGetD
  cases hval : dictGet? d k with
  | none => rfl
  | some w => rw [hval] at h; simp at h

theorem isPrefixOf_self (l : List Char) : l.isPrefixOf l = true := by
  induction l with
  | nil => rfl
  | cons c cs ih => simp [List.isPrefixOf, ih]

theorem pyReplaceAux_nil (pat rep : List Char) (fuel : Nat) :
    pyReplaceAux pat rep fuel [] = [] := by
  cases fuel <;> rfl

/-- `s.replace(s, "") == ""` for non-empty `s`: replacing the whole string by
the empty string empties it (Python and this model agree). -/
theorem pyReplace_self (s : String) (h : s ≠ "") : pyReplace s s "" = "" := by
  obtain ⟨l⟩ := s
  cases l with
  | nil => exact absurd rfl h
  | cons c cs =>
      show (⟨pyReplaceAux (c :: cs) [] (cs.length + 1) (c :: cs)⟩ : String) = ""
      rw [pyReplaceAux]
      simp [isPrefixOf_self, pyReplaceAux_nil]

/-- Lookup of a key that `finishProperties` does not touch passes through. -/
theorem dictGet?_finishProperties (request : Request) (data properties : Obj) (k : String)
    (h1 : k ≠ "referrer") (h2 : k ≠ "originalTimestamp") (h3 : k ≠ "name") :
    dictGet? (finishProperties request data properties) k = dictGet? properties k := by
  unfold finishProperties
  split
  · rw [dictGet?_dictSet_ne _ _ _ _ h3, dictGet?_dictSet_ne _ _ _ _ h2,
        dictGet?_dictSet_ne _ _ _ _ h1]
  · rw [dictGet?_dictSet_ne _ _ _ _ h2, dictGet?_dictSet_ne _ _ _ _ h1]

/-! ## Claim theorems -/

/-- C1: for every request, payload and properties mapping, if the resolved
`anonymous_id` equals the non-consent sentinel, `format_context` returns the
empty mapping, regardless of payload content and headers. -/
theorem C1_nonconsent_context_empty (request : Request) (data properties : Obj)
    (anonymous_id : Value) (h : anonymous_id = .str NON_CONSENTED_USER_ID) :
    format_context request data properties anonymous_id = .ok [] := by
  subst h
  rfl

theorem C1_witness :
    format_context { headers := [("x-custom", "v")], clientHost := "10.0.0.1" }
      [("context", .dict [("foo", .str "bar")]), ("properties", .dict [("url", .str "u")])]
      [("title", .str "t")] (.str NON_CONSENTED_USER_ID) = .ok [] :=
  C1_nonconsent_context_empty _ _ _ _ rfl

/-- C2: when an authentication secret is configured, every request to a route
other than `/healthcheck` whose `x-api-key` header is absent or differs from
the secret gets the `401 {"detail": "Unauthorized"}` response, and the handler
(request shaper, facade) never runs: the result is independent of the handler
and the state is returned unchanged. -/
theorem C2_unauthorized (σ : Type) (s : String) (route : Route)
    (x_api_key : Option String) (handler : σ → HTTPResponse × σ) (st : σ)
    (hroute : route ≠ .healthcheck) (hkey : x_api_key ≠ some s) :
    dispatch (some s) route x_api_key handler st =
      ({ status := 401, body := [("detail", .str "Unauthorized")] }, st) := by
  have hauth : auth_required route = true := by
    cases route <;> simp_all [auth_required]
  simp [dispatch, hauth, authenticate, hkey, errorResponse]

theorem C2_witness :
    dispatch (σ := Nat) (some "secret") .identifyRoute none
      (fun n => ({ status := 200, body := [] }, n + 1)) 0 =
      ({ status := 401, body := [("detail", .str "Unauthorized")] }, 0) :=
  C2_unauthorized Nat "secret" .identifyRoute none _ 0 (by decide) (by simp)

/-- C9: the authentication gate raises 401 iff the header value differs from
the configured secret; consequently when `API_AUTHENTICATION_KEY` is unset
(`none`) a request omitting `x-api-key` is accepted on every protected
endpoint (`None == None`), and the handler runs. -/
theorem C9_auth_iff (api_authentication_key x_api_key : Option String) :
    (authenticate api_authentication_key x_api_key =
        .error { status := 401, detail := "Unauthorized" } ↔
      x_api_key ≠ api_authentication_key)
  ∧ (∀ (σ : Type) (route : Route) (handler : σ → HTTPResponse × σ) (st : σ),
       api_authentication_key = none → x_api_key = none →
       dispatch api_authentication_key route x_api_key handler st = handler st) := by
  constructor
  · by_cases h : x_api_key = api_authentication_key <;> simp [authenticate, h]
  · intro σ route handler st h1 h2
    subst h1; subst h2
    cases route <;> simp [dispatch, auth_required, authenticate]

theorem C9_witness :
    authenticate none (some "k") = .error { status := 401, detail := "Unauthorized" }
  ∧ dispatch (σ := Nat) none .trackRoute none
      (fun n => ({ status := 200, body := [] }, n + 1)) 5 =
      ({ status := 200, body := [] }, 6) :=
  ⟨(C9_auth_iff none (some "k")).1.mpr (by simp),
   (C9_auth_iff none none).2 Nat .trackRoute (fun n => ({ status := 200, body := [] }, n + 1)) 5 rfl rfl⟩

/-- C4: `get_ids` returns `user_id` equal to the raw payload field when the key
is present and `None` otherwise, and `anonymous_id` equal to the raw payload
field when that value is truthy and the sentinel otherwise; the returned
`anonymous_id` is never empty (and never `None`). -/
theorem C4_get_ids (data : Obj) :
    (dictContains data "user_id" = true →
       (get_ids data).1 = dictGetD data "user_id" .null)
  ∧ (dictContains data "user_id" = false → (get_ids data).1 = .null)
  ∧ (truthy (dictGetD data "anonymous_id" .null) = true →
       (get_ids data).2 = dictGetD data "anonymous_id" .null)
  ∧ (truthy (dictGetD data "anonymous_id" .null) = false →
       (get_ids data).2 = .str NON_CONSENTED_USER_ID)
  ∧ (get_ids data).2 ≠ .str ""
  ∧ (get_ids data).2 ≠ .null := by
  refine ⟨fun h => by simp [get_ids, h], fun h => by simp [get_ids, h], ?_, ?_, ?_, ?_⟩
  · intro h; simp [get_ids, h]
  · intro h; simp [get_ids, h]
  · by_cases h : truthy (dictGetD data "anonymous_id" .null) <;> simp [get_ids, h]
    · intro heq
      rw [heq] at h
      exact absurd h (by simp [truthy])
    · intro heq
      exact absurd heq (by decide)
  · by_cases h : truthy (dictGetD data "anonymous_id" .null) <;> simp [get_ids, h]
    intro heq
    rw [heq] at h
    exact absurd h (by simp [truthy])

theorem C4_witness :
    (get_ids [("user_id", .str "u1"), ("anonymous_id", .str "a1")]).1 = .str "u1"
  ∧ (get_ids [("user_id", .str "u1"), ("anonymous_id", .str "a1")]).2 = .str "a1"
  ∧ (get_ids []).2 = .str NON_CONSENTED_USER_ID :=
  ⟨(C4_get_ids [("user_id", .str "u1"), ("anonymous_id", .str "a1")]).1 rfl,
   (C4_get_ids [("user_id", .str "u1"), ("anonymous_id", .str "a1")]).2.2.1 rfl,
   (C4_get_ids []).2.2.2.1 rfl⟩

/-- C7: `track_event` is a total function into `Bool × ServiceState` (the whole
body is inside `try/except`, so no exception reaches the caller).  It returns
`True` and schedules exactly one deferred delivery task when the payload
validates and at least one of `user_id`/`anonymous_id` is non-`None`; it
returns `False` and schedules nothing when validation fails or both
identifiers are `None`.  (The pydantic dump of a validated `SegmentTrack`
always contains both identifier keys, the hypotheses of the second part.) -/
theorem C7_track_event (validate : Obj → Option Obj) (st : ServiceState)
    (event_payload : Obj) :
    (validate event_payload = none →
       SegmentService.track_event validate st event_payload =
         (false, { st with warnLog := st.warnLog ++ ["Error (calling track_event): ValidationError"] }))
  ∧ (∀ event_props, validate event_payload = some event_props →
       dictContains event_props "user_id" = true →
       dictContains event_props "anonymous_id" = true →
       (¬(dictGetD event_props "user_id" .null = .null ∧
            dictGetD event_props "anonymous_id" .null = .null) →
          SegmentService.track_event validate st event_payload =
            (true, { st with tasks := st.tasks ++ [.trackTask event_props] }))
     ∧ ((dictGetD event_props "user_id" .null = .null ∧
            dictGetD event_props "anonymous_id" .null = .null) →
          (SegmentService.track_event validate st event_payload).1 = false ∧
          (SegmentService.track_event validate st event_payload).2.tasks = st.tasks)) := by
  constructor
  · intro h
    simp [SegmentService.track_event, SegmentService.track_event_try, h, pyErrMsg]
  · intro event_props hv hu ha
    simp only [dictContains, Option.isSome_iff_exists] at hu ha
    obtain ⟨u, hu⟩ := hu
    obtain ⟨a, ha⟩ := ha
    have hgu : dictGetD event_props "user_id" .null = u := by simp [dictGetD, hu]
    have hga : dictGetD event_props "anonymous_id" .null = a := by simp [dictGetD, ha]
    rw [hgu, hga]
    constructor
    · intro hne
      have hguard : track_guard event_props = .ok false := by
        by_cases hnu : isNull u = true
        · have hna : isNull a = false := by
            by_cases hna : isNull a = true
            · exact absurd ⟨(isNull_iff u).mp hnu, (isNull_iff a).mp hna⟩ hne
            · simpa using hna
          simp [track_guard, dictIndex, hu, ha, hnu, hna]
        · simp only [Bool.not_eq_true] at hnu
          simp [track_guard, dictIndex, hu, hnu]
      simp [SegmentService.track_event, SegmentService.track_event_try, hv, hguard]
    · intro hboth
      have hnu : isNull u = true := (isNull_iff u).mpr hboth.1
      have hna : isNull a = true := (isNull_iff a).mpr hboth.2
      have hguard : track_guard event_props = .ok true := by
        simp [track_guard, dictIndex, hu, ha, hnu, hna]
      simp [SegmentService.track_event, SegmentService.track_event_try, hv, hguard]

theorem C7_witness :
    SegmentService.track_event
      (fun _ => some [("user_id", .null), ("anonymous_id", .str "a1")]) ⟨[], [], []⟩ [] =
      (true, { tasks := [.trackTask [("user_id", .null), ("anonymous_id", .str "a1")]],
               errorLog := [], warnLog := [] }) :=
  ((C7_track_event (fun _ => some [("user_id", .null), ("anonymous_id", .str "a1")])
      ⟨[], [], []⟩ []).2 [("user_id", .null), ("anonymous_id", .str "a1")] rfl rfl rfl).1
    (fun hb => Value.noConfusion hb.2)

/-- C10: when a validated identify payload carries `user_id = None` or
`anonymous_id = None`, `SegmentService.identify` raises the internal
`ValueError`, which the surrounding `try/except` routes to `_on_error`: no
background task is scheduled, the error is logged, and no exception reaches
the caller (the method is total and returns normally, so a calling endpoint
proceeds to its success response). -/
theorem C10_identify_silent_drop (validate : Obj → Option Obj) (st : ServiceState)
    (event event_props : Obj)
    (hv : validate event = some event_props)
    (hnull : dictGet? event_props "user_id" = some .null ∨
             dictGet? event_props "anonymous_id" = some .null) :
    (SegmentService.identify validate st event).tasks = st.tasks
  ∧ (SegmentService.identify validate st event).errorLog =
      st.errorLog ++ ["ValueError: `user_id` and `anonymous id` are required"]
  ∧ (SegmentService.identify validate st event).warnLog = st.warnLog := by
  have htry : SegmentService.identify_try validate st event =
      .error (.valueError "`user_id` and `anonymous id` are required") := by
    cases hnull with
    | inl h =>
        simp [SegmentService.identify_try, hv, dictGetD, h, isNull]
    | inr h =>
        have h2 : dictGet? (dictPop event_props "user_id") "anonymous_id" = some .null := by
          rw [dictGet?_dictPop_ne _ _ _ (by decide)]
          exact h
        simp [SegmentService.identify_try, hv, dictGetD, h2, isNull]
  simp [SegmentService.identify, htry, on_error, pyErrMsg]

theorem C10_witness :
    (SegmentService.identify
       (fun _ => some [("user_id", .null), ("anonymous_id", .str "a1")]) ⟨[], [], []⟩ []).tasks = []
  ∧ (SegmentService.identify
       (fun _ => some [("user_id", .null), ("anonymous_id", .str "a1")]) ⟨[], [], []⟩ []).errorLog =
      ["ValueError: `user_id` and `anonymous id` are required"]
  ∧ (SegmentService.identify
       (fun _ => some [("user_id", .null), ("anonymous_id", .str "a1")]) ⟨[], [], []⟩ []).warnLog = [] :=
  C10_identify_silent_drop (fun _ => some [("user_id", .null), ("anonymous_id", .str "a1")])
    ⟨[], [], []⟩ [] [("user_id", .null), ("anonymous_id", .str "a1")] rfl (Or.inl rfl)

/-- C8: `create_args` sets the envelope's `timestamp` to the caller-supplied
`originalTimestamp` value, defaulting to the formatted current instant
(`utc_now().strftime(date_format)`, passed as `now_formatted`) when the payload
carries no `originalTimestamp` key; `event_name` defaults to the placeholder
`"no event name"` when absent from the payload. -/
theorem C8_create_args_defaults (now_formatted : String) (request : Request)
    (data : Obj) (exclude_properties : Bool) (args : Obj)
    (h : create_args now_formatted request data exclude_properties = .ok args) :
    dictGet? args "timestamp" = some (dictGetD data "originalTimestamp" (.str now_formatted))
  ∧ dictGet? args "event_name" = some (dictGetD data "event_name" (.str "no event name"))
  ∧ (dictContains data "originalTimestamp" = false →
       dictGet? args "timestamp" = some (.str now_formatted))
  ∧ (dictContains data "event_name" = false →
       dictGet? args "event_name" = some (.str "no event name")) := by
  simp only [create_args] at h
  split at h
  case h_2 e hp => exact absurd h (by simp)
  case h_1 properties hp =>
    split at h
    case h_2 e hc => exact absurd h (by simp)
    case h_1 context hc =>
      have hargs := Except.ok.inj h
      subst hargs
      cases exclude_properties <;>
        refine ⟨rfl, rfl, fun hcont => ?_, fun hcont => ?_⟩ <;>
        first
        | (show some (dictGetD data "originalTimestamp" (.str now_formatted)) =
              some (.str now_formatted)
           rw [dictGetD_of_not_contains _ _ _ hcont])
        | (show some (dictGetD data "event_name" (.str "no event name")) =
              some (.str "no event name")
           rw [dictGetD_of_not_contains _ _ _ hcont])

theorem C8_witness :
    dictGet? ((create_args "NOW" { headers := [], clientHost := "h" } [] false).toOption.getD [])
      "timestamp" = some (.str "NOW")
  ∧ dictGet? ((create_args "NOW" { headers := [], clientHost := "h" } [] false).toOption.getD [])
      "event_name" = some (.str "no event name") :=
  ⟨(C8_create_args_defaults "NOW" { headers := [], clientHost := "h" } [] false _ rfl).2.2.1 rfl,
   (C8_create_args_defaults "NOW" { headers := [], clientHost := "h" } [] false _ rfl).2.2.2 rfl⟩

/-- C3 (failing input): for an authenticated `POST /identify` with body `{}`,
the handler's first statement calls `create_args(request, exclude_properties=True)`,
which leaves the required parameter `data` of `app.utils.create_args` unbound:
the call raises `TypeError`, the `except` branch returns `{"Error": error}`
instead of the `200 {"message": "User (not_consented) was not identified"}`
body that the spec and the repository's own test `test_identify_empty_body`
expect.  The facade is indeed never invoked (the task list is unchanged). -/
theorem C3_identify_route_bug :
    identify_route { headers := [("x-api-key", "secret")], clientHost := "t" } [] ⟨[], [], []⟩ =
      (.errObj "TypeError: create_args() missing 1 required positional argument: data",
       ⟨[], [], []⟩)
  ∧ (identify_route { headers := [("x-api-key", "secret")], clientHost := "t" } []
       ⟨[], [], []⟩).2.tasks = []
  ∧ RouteResult.errObj "TypeError: create_args() missing 1 required positional argument: data" ≠
      RouteResult.ok not_identified_body :=
  ⟨rfl, rfl, fun h => RouteResult.noConfusion h⟩

/-- C5 counterexample: `format_properties` computes `path`/`search` with
`url.replace(origin, "")`, which removes EVERY occurrence of the origin, not
just a leading scheme+host prefix.  With `Origin: https://a.com` and
`url = "https://a.com/p?q=https://a.com/r"`, the claim's prefix-stripping
reading (`spec_path_and_search`) yields `search = "q=https://a.com/r"`, but
the code yields `search = "q=/r"`. -/
theorem C5_counterexample :
    format_properties reqC5 dataC5 =
      .ok [("url", .str "https://a.com/p?q=https://a.com/r"), ("path", .str "/p"),
           ("search", .str "q=/r"), ("referrer", .null), ("originalTimestamp", .null)]
  ∧ spec_path_and_search "https://a.com" "https://a.com/p?q=https://a.com/r" =
      ("/p", "q=https://a.com/r")
  ∧ ("q=/r" : String) ≠ "q=https://a.com/r" :=
  ⟨rfl, rfl, by decide⟩

/-- C5 amended: when the request carries a non-empty `Origin` header and the
payload's properties object has a string `url`, `format_properties` sets
`path` and `search` by removing every occurrence of the origin from the url
(Python `str.replace`) and splitting at the first `?`; in particular, when the
url equals the origin exactly, `path` and `search` are both empty. -/
theorem C5_url_split (request : Request) (data props : Obj) (origin u : String) (out : Obj)
    (hor : headerGet request "origin" = some origin)
    (hne : origin ≠ "")
    (hprops : dictGetD data "properties" (.dict []) = .dict props)
    (hurl : dictGet? props "url" = some (.str u))
    (h : format_properties request data = .ok out) :
    dictGet? out "path" = some (.str (pyPartition (pyReplace u origin "") '?').1)
  ∧ dictGet? out "search" = some (.str (pyPartition (pyReplace u origin "") '?').2)
  ∧ (u = origin →
       dictGet? out "path" = some (.str "") ∧ dictGet? out "search" = some (.str "")) := by
  have hcontains : dictContains props "url" = true := by simp [dictContains, hurl]
  have hsplit : urlSplitStep request props =
      .ok (dictSet (dictSet props "path" (.str (pyPartition (pyReplace u origin "") '?').1))
            "search" (.str (pyPartition (pyReplace u origin "") '?').2)) := by
    simp only [urlSplitStep, hor, hurl, hcontains]
    simp [hne]
  have hout : out = finishProperties request data
      (dictSet (dictSet props "path" (.str (pyPartition (pyReplace u origin "") '?').1))
        "search" (.str (pyPartition (pyReplace u origin "") '?').2)) := by
    unfold format_properties at h
    rw [hprops] at h
    simp only [hsplit] at h
    exact (Except.ok.inj h).symm
  subst hout
  have hpath : dictGet? (finishProperties request data
      (dictSet (dictSet props "path" (.str (pyPartition (pyReplace u origin "") '?').1))
        "search" (.str (pyPartition (pyReplace u origin "") '?').2))) "path" =
      some (.str (pyPartition (pyReplace u origin "") '?').1) := by
    rw [dictGet?_finishProperties _ _ _ _ (by decide) (by decide) (by decide),
        dictGet?_dictSet_ne _ _ _ _ (by decide), dictGet?_dictSet_self]
  have hsearch : dictGet? (finishProperties request data
      (dictSet (dictSet props "path" (.str (pyPartition (pyReplace u origin "") '?').1))
        "search" (.str (pyPartition (pyReplace u origin "") '?').2))) "search" =
      some (.str (pyPartition (pyReplace u origin "") '?').2) := by
    rw [dictGet?_finishProperties _ _ _ _ (by decide) (by decide) (by decide),
        dictGet?_dictSet_self]
  refine ⟨hpath, hsearch, fun hu => ?_⟩
  subst hu
  rw [pyReplace_self u hne] at hpath hsearch ⊢
  exact ⟨hpath, hsearch⟩

theorem C5_witness :
    dictGet? ((format_properties reqC5url dataC5url).toOption.getD []) "path" =
      some (.str "")
  ∧ dictGet? ((format_properties reqC5url dataC5url).toOption.getD []) "search" =
      some (.str "") :=
  (C5_url_split reqC5url dataC5url [("url", .str "https://testurl.com")]
      "https://testurl.com" "https://testurl.com" _ rfl (by decide) rfl rfl rfl).2.2 rfl

/-- C6 counterexample: for a consented request, the `page` object inside the
built context is NOT the properties mapping minus `name`: `format_context`
re-runs `format_properties` on the already-formatted properties mapping, so
`page` keeps only `referrer`/`originalTimestamp` (plus any nested
`properties` contents) and drops the payload's own property fields.  Here the
properties mapping carries `title`, but the `page` object does not. -/
theorem C6_counterexample :
    format_properties reqC6 dataC6 = .ok propsC6
  ∧ ((format_context reqC6 dataC6 propsC6 (.str "a1")).toOption.bind
       (fun ctx => dictGet? ctx "page")) =
      some (.dict [("referrer", .null), ("originalTimestamp", .null)])
  ∧ dictGet? (dictPop propsC6 "name") "title" = some (.str "t")
  ∧ dictGet? [("referrer", Value.null), ("originalTimestamp", Value.null)] "title" = none
  ∧ Value.dict [("referrer", Value.null), ("originalTimestamp", Value.null)] ≠
      Value.dict (dictPop propsC6 "name") := by
  refine ⟨rfl, rfl, rfl, rfl, fun hcontra => ?_⟩
  have h1 := Value.dict.inj hcontra
  have h2 := congrArg (fun l => dictGet? l "title") h1
  simp only [dictGet?] at h2
  exact Option.noConfusion h2

/-- C6 amended: for every consented request, the built context carries `ip`,
`userAgent` and `locale` merged over the caller-supplied context object, and a
nested `page` object equal to `format_properties` re-applied to the formatted
properties mapping (treated as a payload), minus its `name` key — not the
properties mapping itself minus `name`. -/
theorem C6_context_shape (request : Request) (data properties : Obj) (anonymous_id : Value)
    (c p2 ctx : Obj)
    (hcons : valueEqStr anonymous_id NON_CONSENTED_USER_ID = false)
    (hctx : dictGetD data "context" (.dict []) = .dict c)
    (hp2 : format_properties request properties = .ok p2)
    (h : format_context request data properties anonymous_id = .ok ctx) :
    dictGet? ctx "page" = some (.dict (dictPop p2 "name"))
  ∧ dictGet? ctx "ip" = some (.str request.clientHost)
  ∧ dictGet? ctx "userAgent" = some (headerValue request "user-agent")
  ∧ dictGet? ctx "locale" = some (.str (headerLocale request))
  ∧ ∀ k, k ≠ "ip" → k ≠ "userAgent" → k ≠ "locale" → k ≠ "page" →
      dictGet? ctx k = dictGet? c k := by
  unfold format_context at h
  rw [hcons] at h
  rw [hctx] at h
  simp only [hp2, Bool.false_eq_true, if_false] at h
  have hctxval := Except.ok.inj h
  subst hctxval
  refine ⟨dictGet?_dictSet_self _ _ _, ?_, ?_, ?_, ?_⟩
  · rw [dictGet?_dictSet_ne _ _ _ _ (by decide), dictGet?_dictSet_ne _ _ _ _ (by decide),
        dictGet?_dictSet_ne _ _ _ _ (by decide), dictGet?_dictSet_self]
  · rw [dictGet?_dictSet_ne _ _ _ _ (by decide), dictGet?_dictSet_ne _ _ _ _ (by decide),
        dictGet?_dictSet_self]
  · rw [dictGet?_dictSet_ne _ _ _ _ (by decide), dictGet?_dictSet_self]
  · intro k h1 h2 h3 h4
    rw [dictGet?_dictSet_ne _ _ _ _ h4, dictGet?_dictSet_ne _ _ _ _ h3,
        dictGet?_dictSet_ne _ _ _ _ h2, dictGet?_dictSet_ne _ _ _ _ h1]

theorem C6_witness :
    dictGet? ((format_context reqC6 dataC6 propsC6 (.str "a1")).toOption.getD []) "page" =
      some (.dict (dictPop ((format_properties reqC6 propsC6).toOption.getD []) "name"))
  ∧ dictGet? ((format_context reqC6 dataC6 propsC6 (.str "a1")).toOption.getD []) "ip" =
      some (.str "1.2.3.4")
  ∧ dictGet? ((format_context reqC6 dataC6 propsC6 (.str "a1")).toOption.getD []) "extra" =
      some (.str "x") :=
  ⟨(C6_context_shape reqC6 dataC6 propsC6 (.str "a1") [("extra", .str "x")] _ _
      rfl rfl rfl rfl).1,
   (C6_context_shape reqC6 dataC6 propsC6 (.str "a1") [("extra", .str "x")] _ _
      rfl rfl rfl rfl).2.1,
   (C6_context_shape reqC6 dataC6 propsC6 (.str "a1") [("extra", .str "x")] _ _
      rfl rfl rfl rfl).2.2.2.2 "extra" (by decide) (by decide) (by decide) (by decide)⟩
